import Mathlib

/-
  Verification development for the Orama Python client's AI session stream
  manager (`orama/stream_manager.py`).

  The session manager keeps a conversation history (`messages`), a list of
  per-question interaction records (`state`), the parameters of the last
  issued request (`last_interaction_params`) and a per-request cancellation
  flag (`abort_event`, an `asyncio.Event` modelled as `Option Bool`: `none`
  while no request was ever issued, `some b` for an event whose `is_set()`
  is `b`).

  The asynchronous generator `answer_stream` is modelled as a function of
  the session state, the request, a supply of fresh identifiers (standing
  for `uuid.uuid4()` draws) and an environment describing what the outside
  world does at the `await` points: the transport either succeeds or raises,
  and during each tick of the polling loop another task may mutate the
  current interaction's `response` or call `abort()`.  Observer notification
  (`_push_state`) passes the state list to callbacks and changes nothing in
  the session itself, so it is not represented.
-/

namespace Orama

inductive Role where
  | system
  | assistant
  | user
deriving DecidableEq, Repr

structure Message where
  role : Role
  content : String
deriving DecidableEq, Repr

structure RelatedQuestionsConfig where
  enabled : Option Bool := none
  size : Option Nat := none
  format : Option String := none
deriving DecidableEq, Repr

structure LLMConfig where
  provider : String
  model : String
deriving DecidableEq, Repr

/-- The `AnswerConfig` dataclass.  `min_similarity` is a float in the source
and `ragat` stands for the source's ragat notation field; both are carried
through uninterpreted, so they are modelled as inert strings. -/
structure AnswerConfig where
  query : String
  interaction_id : Option String := none
  visitor_id : Option String := none
  session_id : Option String := none
  messages : Option (List Message) := none
  related : Option RelatedQuestionsConfig := none
  datasource_ids : Option (List String) := none
  min_similarity : Option String := none
  max_documents : Option Nat := none
  ragat : Option String := none
deriving DecidableEq, Repr

/-- The `Interaction` dataclass.  `sources`, `optimized_query` and
`advanced_autoquery` hold structured payloads the manager never inspects;
they are modelled as inert strings. -/
structure Interaction where
  id : String
  query : String
  response : String := ""
  sources : Option String := none
  loading : Bool := true
  error : Bool := false
  error_message : Option String := none
  aborted : Bool := false
  related : Option String := none
  current_step : Option String := none
  current_step_verbose : Option String := none
  selected_llm : Option LLMConfig := none
  optimized_query : Option String := none
  advanced_autoquery : Option String := none
deriving DecidableEq, Repr

/-- The mutable attributes of an `OramaCoreStream` object. -/
structure SessionState where
  collection_id : String
  session_id : String
  last_interaction_params : Option AnswerConfig := none
  abort_event : Option Bool := none
  messages : List Message := []
  state : List Interaction := []
  llm_config : Option LLMConfig := none
deriving DecidableEq, Repr

/-- Python truthiness of an `Optional[str]`: both `None` and `""` are falsy. -/
def strFalsy : Option String → Bool
  | none => true
  | some s => s = ""

/-- Python `v or d` on an `Optional[str]`. -/
def orStr (v : Option String) (d : String) : String :=
  match v with
  | none => d
  | some s => if s = "" then d else s

/-- The `OramaCoreStream.__init__` constructor: `session_id` falls back to a
fresh uuid when the configured one is falsy, `messages` starts from
`initial_messages or []`, `state` starts empty, and no request has been
issued yet (`last_interaction_params = None`, `abort_event = None`). -/
def initSession (collection_id : String) (llm : Option LLMConfig)
    (initial_messages : Option (List Message)) (sid : Option String)
    (fresh_sid : String) : SessionState :=
  { collection_id := collection_id
    session_id := orStr sid fresh_sid
    last_interaction_params := none
    abort_event := none
    messages := initial_messages.getD []
    state := []
    llm_config := llm }

/-- Modelled from the spec: `DEFAULT_SERVER_USER_ID` is imported from a
`constants` module that is not among the sources; the spec describes it as
"a fixed server-context identifier" used for the server-side client.  Its
concrete value is irrelevant to every claim; it is fixed here to the string
"server". -/
def DEFAULT_SERVER_USER_ID : String := "server"

/-- `OramaCoreStream._get_user_id`: always the fixed server user id. -/
def get_user_id (_st : SessionState) : String := DEFAULT_SERVER_USER_ID

/-- `OramaCoreStream._enrich_config`: fills `visitor_id`, `interaction_id`
and `session_id` when they are Python-falsy (unset or empty).  The source
performs the three fills one after the other on the same object; since each
guard reads a field no other fill writes, the simultaneous record update
below is the same function. -/
def enrich_config (st : SessionState) (fresh : String) (cfg : AnswerConfig) : AnswerConfig :=
  { cfg with
    visitor_id := if strFalsy cfg.visitor_id then some (get_user_id st) else cfg.visitor_id
    interaction_id := if strFalsy cfg.interaction_id then some fresh else cfg.interaction_id
    session_id := if strFalsy cfg.session_id then some st.session_id else cfg.session_id }

/-- `AnswerConfig(**data.__dict__)`: the dataclass has no `copy` attribute,
so `answer_stream` rebuilds a shallow field-by-field copy. -/
def copyConfig (c : AnswerConfig) : AnswerConfig :=
  { query := c.query
    interaction_id := c.interaction_id
    visitor_id := c.visitor_id
    session_id := c.session_id
    messages := c.messages
    related := c.related
    datasource_ids := c.datasource_ids
    min_similarity := c.min_similarity
    max_documents := c.max_documents
    ragat := c.ragat }

/-- The interaction record appended at the start of `answer_stream`
(lines 111-125 of the source). -/
def mkInteraction (iid : String) (cfg : AnswerConfig) : Interaction :=
  { id := iid
    query := cfg.query
    response := ""
    sources := none
    loading := true
    error := false
    aborted := false
    error_message := none
    related :=
      match cfg.related with
      | some rc => if rc.enabled = some true then some "" else none
      | none => none
    current_step := some "starting"
    current_step_verbose := none
    selected_llm := none
    optimized_query := none
    advanced_autoquery := none }

def defaultInteraction : Interaction := { id := "", query := "" }

/-- In-place mutation of the interaction at index `i`
(`self.state[i].field = ...` in the source). -/
def updateAt (l : List Interaction) (i : Nat) (f : Interaction → Interaction) :
    List Interaction :=
  l.set i (f (l.getD i defaultInteraction))

def markAborted (it : Interaction) : Interaction :=
  { it with aborted := true, loading := false }

/-- `OramaCoreStream.abort`: raises when no request was ever issued
(`abort_event` is `None`) or the interaction list is empty; otherwise sets
the cancellation flag and marks the last interaction aborted and no longer
loading.  The second component is the raised exception message, `none` on
success; on failure the session is returned unchanged (the source raises
before mutating anything). -/
def abort (st : SessionState) : SessionState × Option String :=
  if st.abort_event.isNone then (st, some "No active request to abort")
  else if st.state.isEmpty then (st, some "There is no active request to abort")
  else
    ({ st with
        abort_event := some true
        state := updateAt st.state (st.state.length - 1) markAborted }, none)

/-- `OramaCoreStream.clear_session`: resets both histories. -/
def clear_session (st : SessionState) : SessionState :=
  { st with messages := [], state := [] }

/-- Is the cancellation flag set (`self.abort_event.is_set()`)? -/
def abortSet (st : SessionState) : Bool :=
  st.abort_event = some true

/-- One unit of external activity at an `await` point of the stream loop:
some other task mutates the current interaction's accumulated `response`
text (standing in for the source's "simulate streaming response processing"
placeholder, which polls `self.state[i].response` for changes made outside
the loop), or the caller invokes `abort()`, or nothing happens during the
tick. -/
inductive EnvStep where
  | setResponse (s : String)
  | callAbort
  | idle
deriving DecidableEq, Repr

def applyStep (i : Nat) (st : SessionState) : EnvStep → SessionState
  | .setResponse s =>
      { st with state := updateAt st.state i (fun it => { it with response := s }) }
  | .callAbort => (abort st).1
  | .idle => st

/-- The mutation performed when the polling loop observes a non-empty
response snapshot: `finished = True; self.state[i].loading = False`. -/
def finishAt (st : SessionState) (i : Nat) : SessionState :=
  { st with state := updateAt st.state i (fun it => { it with loading := false }) }

def respAt (st : SessionState) (i : Nat) : String :=
  (st.state.getD i defaultInteraction).response

/-- The polling loop of `answer_stream` (source lines 158-178).  Each
iteration: exit if `finished` or the cancellation flag is set; snapshot the
current response and yield it if it changed; sleep (one `EnvStep` of
external activity happens here); if the snapshot was non-empty, mark the
interaction as not loading and exit.  The returned Bool is `true` when the
loop terminated and `false` when the script of external activity ran out
with the loop still spinning on an empty response (the real coroutine would
poll forever); the returned list collects the yielded chunks in order. -/
def runLoop (i : Nat) : List EnvStep → SessionState → String → List String →
    SessionState × List String × Bool
  | [], st, last, ys =>
      if abortSet st then (st, ys, true)
      else if respAt st i = "" then
        (st, (if respAt st i = last then ys else ys ++ [respAt st i]), false)
      else
        (finishAt st i, (if respAt st i = last then ys else ys ++ [respAt st i]), true)
  | step :: rest, st, last, ys =>
      if abortSet st then (st, ys, true)
      else if respAt st i = "" then
        runLoop i rest (applyStep i st step) (respAt st i)
          (if respAt st i = last then ys else ys ++ [respAt st i])
      else
        (finishAt (applyStep i st step) i,
          (if respAt st i = last then ys else ys ++ [respAt st i]), true)

/-- Transport outcome of `get_response`: either a stream is delivered, or an
exception reaches the `except` block of `answer_stream` with message `msg`
(an empty response body raises `Exception("No response body")` inside the
`try`, so it is the `fail` case with that message). -/
inductive TransportOutcome where
  | ok
  | fail (msg : String)
deriving DecidableEq, Repr

/-- The environment of one `answer_stream` run: external activity during the
transport request, the transport outcome, and external activity during the
polling loop. -/
structure Env where
  duringRequest : List EnvStep := []
  outcome : TransportOutcome := .ok
  loopScript : List EnvStep := []
deriving DecidableEq, Repr

/-- How one `answer_stream` run ended: the generator completed normally
(with the listed yields), re-raised an exception, returned early from the
`except` block because the cancellation flag was set, or kept polling
forever. -/
inductive StreamResult where
  | finished (ys : List String)
  | raised (msg : String)
  | abortReturn
  | divergent
deriving DecidableEq, Repr

/-- The synchronous prefix of `answer_stream` (source lines 99-130): store a
pre-enrichment copy of the request, enrich the request in place, install a
fresh unset cancellation event, append the user message and the empty
assistant placeholder, and append the new interaction.  `fresh1` is the
uuid drawn by `_enrich_config`, `fresh2` the one drawn by the
`data.interaction_id or str(uuid.uuid4())` fallback on line 109 (dead after
enrichment, since enrichment leaves `interaction_id` truthy). -/
def setupPhase (st0 : SessionState) (fresh1 fresh2 : String) (cfg : AnswerConfig) :
    SessionState :=
  let cfg' := enrich_config st0 fresh1 cfg
  { st0 with
    last_interaction_params := some (copyConfig cfg)
    abort_event := some false
    messages := st0.messages ++ [⟨Role.user, cfg'.query⟩, ⟨Role.assistant, ""⟩]
    state := st0.state ++ [mkInteraction (orStr cfg'.interaction_id fresh2) cfg'] }

/-- `current_state_index` (source line 129). -/
def streamIndex (st0 : SessionState) (fresh1 fresh2 : String) (cfg : AnswerConfig) : Nat :=
  (setupPhase st0 fresh1 fresh2 cfg).state.length - 1

/-- Session state when the transport call returns or raises: the setup
phase followed by whatever external activity happened during the request. -/
def midState (st0 : SessionState) (fresh1 fresh2 : String) (cfg : AnswerConfig)
    (pre : List EnvStep) : SessionState :=
  pre.foldl (applyStep (streamIndex st0 fresh1 fresh2 cfg)) (setupPhase st0 fresh1 fresh2 cfg)

/-- The mutation of the `except` block's error branch: mark the interaction
failed and record the exception's message. -/
def markFailed (msg : String) (it : Interaction) : Interaction :=
  { it with loading := false, error := true, error_message := some msg }

/-- The `except` block of `answer_stream` (source lines 180-191): if the
cancellation flag is set the interaction is marked aborted and the
generator returns; otherwise the interaction is marked failed with the
exception's message and the exception is re-raised. -/
def failState (st : SessionState) (i : Nat) (msg : String) : SessionState × StreamResult :=
  if abortSet st then
    ({ st with state := updateAt st.state i markAborted }, .abortReturn)
  else
    ({ st with state := updateAt st.state i (markFailed msg) }, .raised msg)

/-- The whole `answer_stream` run, driven to completion. -/
def answer_stream (st0 : SessionState) (fresh1 fresh2 : String) (cfg : AnswerConfig)
    (env : Env) : SessionState × StreamResult :=
  let i := streamIndex st0 fresh1 fresh2 cfg
  let mid := midState st0 fresh1 fresh2 cfg env.duringRequest
  match env.outcome with
  | .fail msg => failState mid i msg
  | .ok =>
      let out := runLoop i env.loopScript mid "" []
      (out.1, if out.2.2 then .finished out.2.1 else .divergent)

/-- `OramaCoreStream.answer`: drives `answer_stream` to exhaustion, keeping
the last yielded chunk as the result. -/
def answer (st0 : SessionState) (fresh1 fresh2 : String) (cfg : AnswerConfig)
    (env : Env) : SessionState × StreamResult :=
  answer_stream st0 fresh1 fresh2 cfg env

/-- The final text returned by `answer` (`result` starts as `""` and keeps
the last chunk). -/
def answerText : StreamResult → Option String
  | .finished ys => some (ys.getLastD "")
  | _ => none

/-- `OramaCoreStream.regenerate_last`, with the re-issued answer driven to
completion: raises when either history is empty or the trailing message is
not from the assistant; otherwise pops the last message and the last
interaction (one `messages.pop()` and one `state.pop()` in the source),
then re-issues `answer` with the stored last request parameters (raising,
with the pops already applied, when none are stored). -/
def regenerate_last (st : SessionState) (fresh1 fresh2 : String) (env : Env) :
    SessionState × Except String StreamResult :=
  if st.state.isEmpty || st.messages.isEmpty then
    (st, .error "No messages to regenerate")
  else if ¬ (st.messages.getLast?.map Message.role = some Role.assistant) then
    (st, .error "Last message is not an assistant message")
  else
    let st' : SessionState := { st with messages := st.messages.dropLast, state := st.state.dropLast }
    match st'.last_interaction_params with
    | none => (st', .error "No last interaction parameters available")
    | some ps =>
        let out := answer_stream st' fresh1 fresh2 ps env
        (out.1, .ok out.2)

/-! Concrete fixtures used to exercise the model on small inputs. -/

/-- A freshly constructed session with no initial messages. -/
def demoSession : SessionState := initSession "c1" none none none "sid0"

/-- The request of the spec's scenario: `answer({query:"hi"})`. -/
def demoCfg : AnswerConfig := { query := "hi" }

/-- A benign environment: the transport succeeds and the streamed answer
text "hello" arrives during the first tick of the polling loop. -/
def demoEnv : Env := { duringRequest := [], outcome := .ok, loopScript := [.setResponse "hello"] }

/-- A session constructed with a (paired) non-empty initial history. -/
def pairedSession : SessionState :=
  initSession "c1" none (some [⟨Role.user, "a"⟩, ⟨Role.assistant, "b"⟩]) none "sid0"

/-- A session with one in-flight interaction and an unset cancellation
event, as it looks mid-`answer_stream`. -/
def demoActive : SessionState :=
  { demoSession with
    abort_event := some false
    messages := [⟨Role.user, "hi"⟩, ⟨Role.assistant, ""⟩]
    state := [mkInteraction "i0" demoCfg] }

/-! Basic list lemmas about `set`/`getD` used by the frame arguments. -/

theorem getD_set_self {α : Type} (a d : α) :
    ∀ (l : List α) (i : Nat), i < l.length → (l.set i a).getD i d = a := by
  intro l
  induction l with
  | nil => intro i h; simp at h
  | cons x xs ih =>
      intro i h
      cases i with
      | zero => rfl
      | succ i =>
          simp only [List.set_cons_succ, List.getD_cons_succ]
          exact ih i (Nat.lt_of_succ_lt_succ h)

theorem getD_set_ne {α : Type} (a d : α) :
    ∀ (l : List α) (i j : Nat), i ≠ j → (l.set i a).getD j d = l.getD j d := by
  intro l
  induction l with
  | nil => intro i j _; rfl
  | cons x xs ih =>
      intro i j h
      cases i with
      | zero =>
          cases j with
          | zero => exact absurd rfl h
          | succ j => simp [List.set_cons_zero, List.getD_cons_succ]
      | succ i =>
          cases j with
          | zero => simp [List.set_cons_succ, List.getD_cons_zero]
          | succ j =>
              simp only [List.set_cons_succ, List.getD_cons_succ]
              exact ih i j (fun he => h (by rw [he]))

theorem getD_append_self {α : Type} (x d : α) :
    ∀ (l : List α), (l ++ [x]).getD l.length d = x := by
  intro l
  induction l with
  | nil => rfl
  | cons y ys ih => simp [List.cons_append, List.getD_cons_succ, ih]

theorem getD_append_lt {α : Type} (x d : α) :
    ∀ (l : List α) (j : Nat), j < l.length → (l ++ [x]).getD j d = l.getD j d := by
  intro l
  induction l with
  | nil => intro j h; simp at h
  | cons y ys ih =>
      intro j h
      cases j with
      | zero => rfl
      | succ j =>
          simp only [List.cons_append, List.getD_cons_succ]
          exact ih j (Nat.lt_of_succ_lt_succ h)

theorem length_updateAt (l : List Interaction) (i : Nat) (f : Interaction → Interaction) :
    (updateAt l i f).length = l.length := by
  simp [updateAt]

theorem getD_updateAt_self (l : List Interaction) (i : Nat) (f : Interaction → Interaction)
    (h : i < l.length) :
    (updateAt l i f).getD i defaultInteraction = f (l.getD i defaultInteraction) :=
  getD_set_self _ _ l i h

theorem getD_updateAt_ne (l : List Interaction) (i j : Nat) (f : Interaction → Interaction)
    (h : i ≠ j) :
    (updateAt l i f).getD j defaultInteraction = l.getD j defaultInteraction :=
  getD_set_ne _ _ l i j h

/-! How `abort` evaluates in its three branches. -/

theorem abort_of_none (st : SessionState) (h : st.abort_event = none) :
    abort st = (st, some "No active request to abort") := by
  simp [abort, h]

theorem abort_of_ready (st : SessionState) (hev : st.abort_event.isSome = true)
    (hne : st.state ≠ []) :
    abort st =
      ({ st with
          abort_event := some true
          state := updateAt st.state (st.state.length - 1) markAborted }, none) := by
  have h1 : st.abort_event.isNone = false := by
    cases hO : st.abort_event <;> simp [hO] at hev ⊢
  have h2 : st.state.isEmpty = false := by
    cases hS : st.state <;> simp_all
  simp [abort, h1, h2]

theorem abort_fst_shape (st : SessionState) :
    (abort st).1.messages = st.messages ∧ (abort st).1.state.length = st.state.length := by
  unfold abort
  split
  · exact ⟨rfl, rfl⟩
  · split
    · exact ⟨rfl, rfl⟩
    · exact ⟨rfl, by simp [length_updateAt]⟩

/-! Frame invariant: every state reachable while one `answer_stream` run is
in flight (after its setup phase over a starting state with `n`
interactions) has `n + 1` interactions, the extended message history, the
stored pre-enrichment parameters, a live cancellation event, and all
pre-existing interaction records untouched.  `ErrClear` additionally
records that the in-flight interaction's `error` flag is still false. -/

def FrameInv (n : Nat) (msgs : List Message) (params : Option AnswerConfig)
    (orig : List Interaction) (st : SessionState) : Prop :=
  st.state.length = n + 1 ∧
  st.messages = msgs ∧
  st.last_interaction_params = params ∧
  st.abort_event.isSome = true ∧
  ∀ j, j < n → st.state.getD j defaultInteraction = orig.getD j defaultInteraction

def ErrClear (n : Nat) (st : SessionState) : Prop :=
  (st.state.getD n defaultInteraction).error = false

theorem applyStep_frame (n : Nat) (msgs : List Message) (params : Option AnswerConfig)
    (orig : List Interaction) (st : SessionState) (e : EnvStep)
    (h : FrameInv n msgs params orig st) :
    FrameInv n msgs params orig (applyStep n st e) := by
  obtain ⟨hlen, hmsg, hpar, hev, hfr⟩ := h
  cases e with
  | setResponse s =>
      refine ⟨by simp [applyStep, length_updateAt, hlen], hmsg, hpar, hev, ?_⟩
      intro j hj
      show (updateAt st.state n (fun it => { it with response := s })).getD j
          defaultInteraction = orig.getD j defaultInteraction
      rw [getD_updateAt_ne _ n j _ (by omega)]
      exact hfr j hj
  | idle => exact ⟨hlen, hmsg, hpar, hev, hfr⟩
  | callAbort =>
      have hne : st.state ≠ [] := by
        intro he
        rw [he] at hlen
        simp at hlen
      show FrameInv n msgs params orig (abort st).1
      rw [abort_of_ready st hev hne]
      have hidx : st.state.length - 1 = n := by omega
      refine ⟨by simp [length_updateAt, hlen], hmsg, hpar, by simp, ?_⟩
      intro j hj
      show (updateAt st.state (st.state.length - 1) markAborted).getD j defaultInteraction = _
      rw [hidx, getD_updateAt_ne _ n j _ (by omega)]
      exact hfr j hj

theorem finishAt_frame (n : Nat) (msgs : List Message) (params : Option AnswerConfig)
    (orig : List Interaction) (st : SessionState)
    (h : FrameInv n msgs params orig st) :
    FrameInv n msgs params orig (finishAt st n) := by
  obtain ⟨hlen, hmsg, hpar, hev, hfr⟩ := h
  refine ⟨by simp [finishAt, length_updateAt, hlen], hmsg, hpar, hev, ?_⟩
  intro j hj
  show (updateAt st.state n (fun it => { it with loading := false })).getD j
      defaultInteraction = orig.getD j defaultInteraction
  rw [getD_updateAt_ne _ n j _ (by omega)]
  exact hfr j hj

theorem applyStep_errclear (n : Nat) (msgs : List Message) (params : Option AnswerConfig)
    (orig : List Interaction) (st : SessionState) (e : EnvStep)
    (hf : FrameInv n msgs params orig st) (h : ErrClear n st) :
    ErrClear n (applyStep n st e) := by
  obtain ⟨hlen, _, _, hev, _⟩ := hf
  have hlt : n < st.state.length := by omega
  cases e with
  | setResponse s =>
      show ((updateAt st.state n (fun it => { it with response := s })).getD n
          defaultInteraction).error = false
      rw [getD_updateAt_self _ n _ hlt]
      exact h
  | idle => exact h
  | callAbort =>
      have hne : st.state ≠ [] := by
        intro he
        rw [he] at hlen
        simp at hlen
      show ErrClear n (abort st).1
      rw [abort_of_ready st hev hne]
      have hidx : st.state.length - 1 = n := by omega
      show ((updateAt st.state (st.state.length - 1) markAborted).getD n defaultInteraction).error = false
      rw [hidx, getD_updateAt_self _ n _ hlt]
      exact h

theorem finishAt_errclear (n : Nat) (st : SessionState) (hlt : n < st.state.length)
    (h : ErrClear n st) : ErrClear n (finishAt st n) := by
  show ((updateAt st.state n (fun it => { it with loading := false })).getD n
      defaultInteraction).error = false
  rw [getD_updateAt_self _ n _ hlt]
  exact h

theorem foldl_frame (n : Nat) (msgs : List Message) (params : Option AnswerConfig)
    (orig : List Interaction) :
    ∀ (steps : List EnvStep) (st : SessionState), FrameInv n msgs params orig st →
      FrameInv n msgs params orig (steps.foldl (applyStep n) st) := by
  intro steps
  induction steps with
  | nil => intro st h; exact h
  | cons e rest ih =>
      intro st h
      exact ih _ (applyStep_frame n msgs params orig st e h)

theorem foldl_frame_errclear (n : Nat) (msgs : List Message) (params : Option AnswerConfig)
    (orig : List Interaction) :
    ∀ (steps : List EnvStep) (st : SessionState),
      FrameInv n msgs params orig st → ErrClear n st →
      FrameInv n msgs params orig (steps.foldl (applyStep n) st) ∧
        ErrClear n (steps.foldl (applyStep n) st) := by
  intro steps
  induction steps with
  | nil => intro st h he; exact ⟨h, he⟩
  | cons e rest ih =>
      intro st h he
      exact ih _ (applyStep_frame n msgs params orig st e h)
        (applyStep_errclear n msgs params orig st e h he)

theorem runLoop_frame (n : Nat) (msgs : List Message) (params : Option AnswerConfig)
    (orig : List Interaction) :
    ∀ (script : List EnvStep) (st : SessionState) (last : String) (ys : List String),
      FrameInv n msgs params orig st →
      FrameInv n msgs params orig (runLoop n script st last ys).1 := by
  intro script
  induction script with
  | nil =>
      intro st last ys h
      show FrameInv n msgs params orig (runLoop n [] st last ys).1
      rw [runLoop]
      split
      · exact h
      · split
        · exact h
        · exact finishAt_frame n msgs params orig st h
  | cons e rest ih =>
      intro st last ys h
      show FrameInv n msgs params orig (runLoop n (e :: rest) st last ys).1
      rw [runLoop]
      split
      · exact h
      · split
        · exact ih _ _ _ (applyStep_frame n msgs params orig st e h)
        · exact finishAt_frame n msgs params orig _
            (applyStep_frame n msgs params orig st e h)

/-! Lemmas locating the in-flight interaction and transporting the frame
invariant through the phases of `answer_stream`. -/

theorem enrich_query (st : SessionState) (fresh : String) (cfg : AnswerConfig) :
    (enrich_config st fresh cfg).query = cfg.query := rfl

theorem streamIndex_eq (st0 : SessionState) (f1 f2 : String) (cfg : AnswerConfig) :
    streamIndex st0 f1 f2 cfg = st0.state.length := by
  simp [streamIndex, setupPhase]

theorem setup_frame (st0 : SessionState) (f1 f2 : String) (cfg : AnswerConfig) :
    FrameInv st0.state.length
      (st0.messages ++ [⟨Role.user, cfg.query⟩, ⟨Role.assistant, ""⟩])
      (some (copyConfig cfg)) st0.state (setupPhase st0 f1 f2 cfg) := by
  refine ⟨by simp [setupPhase], rfl, rfl, rfl, ?_⟩
  intro j hj
  show (st0.state ++ [mkInteraction _ _]).getD j defaultInteraction = _
  exact getD_append_lt _ _ _ j hj

theorem setup_errclear (st0 : SessionState) (f1 f2 : String) (cfg : AnswerConfig) :
    ErrClear st0.state.length (setupPhase st0 f1 f2 cfg) := by
  show ((st0.state ++ [mkInteraction _ _]).getD st0.state.length defaultInteraction).error = false
  rw [getD_append_self]
  rfl

theorem midState_frame (st0 : SessionState) (f1 f2 : String) (cfg : AnswerConfig)
    (pre : List EnvStep) :
    FrameInv st0.state.length
      (st0.messages ++ [⟨Role.user, cfg.query⟩, ⟨Role.assistant, ""⟩])
      (some (copyConfig cfg)) st0.state (midState st0 f1 f2 cfg pre) := by
  rw [midState, streamIndex_eq]
  exact foldl_frame _ _ _ _ pre _ (setup_frame st0 f1 f2 cfg)

theorem midState_errclear (st0 : SessionState) (f1 f2 : String) (cfg : AnswerConfig)
    (pre : List EnvStep) :
    ErrClear st0.state.length (midState st0 f1 f2 cfg pre) := by
  rw [midState, streamIndex_eq]
  exact (foldl_frame_errclear _ _ _ _ pre _ (setup_frame st0 f1 f2 cfg)
    (setup_errclear st0 f1 f2 cfg)).2

theorem failState_frame (n : Nat) (msgs : List Message) (params : Option AnswerConfig)
    (orig : List Interaction) (st : SessionState) (msg : String)
    (h : FrameInv n msgs params orig st) :
    FrameInv n msgs params orig (failState st n msg).1 := by
  obtain ⟨hlen, hmsg, hpar, hev, hfr⟩ := h
  unfold failState
  split
  · refine ⟨by simp [length_updateAt, hlen], hmsg, hpar, hev, ?_⟩
    intro j hj
    show (updateAt st.state n markAborted).getD j defaultInteraction = _
    rw [getD_updateAt_ne _ n j _ (by omega)]
    exact hfr j hj
  · refine ⟨by simp [length_updateAt, hlen], hmsg, hpar, hev, ?_⟩
    intro j hj
    show (updateAt st.state n (markFailed msg)).getD j defaultInteraction = _
    rw [getD_updateAt_ne _ n j _ (by omega)]
    exact hfr j hj

theorem answer_stream_frame (st0 : SessionState) (f1 f2 : String) (cfg : AnswerConfig)
    (env : Env) :
    FrameInv st0.state.length
      (st0.messages ++ [⟨Role.user, cfg.query⟩, ⟨Role.assistant, ""⟩])
      (some (copyConfig cfg)) st0.state (answer_stream st0 f1 f2 cfg env).1 := by
  obtain ⟨pre, outc, ls⟩ := env
  cases outc with
  | fail msg =>
      show FrameInv _ _ _ _ (failState (midState st0 f1 f2 cfg pre) (streamIndex st0 f1 f2 cfg) msg).1
      rw [streamIndex_eq]
      exact failState_frame _ _ _ _ _ msg (midState_frame st0 f1 f2 cfg pre)
  | ok =>
      show FrameInv _ _ _ _
        (runLoop (streamIndex st0 f1 f2 cfg) ls (midState st0 f1 f2 cfg pre) "" []).1
      rw [streamIndex_eq]
      exact runLoop_frame _ _ _ _ ls _ "" [] (midState_frame st0 f1 f2 cfg pre)

theorem updateAt_idem (l : List Interaction) (n : Nat) (f : Interaction → Interaction)
    (hf : ∀ x, f (f x) = f x) (hn : n < l.length) :
    updateAt (updateAt l n f) n f = updateAt l n f := by
  unfold updateAt
  rw [getD_set_self _ _ l n hn, List.set_set, hf]

theorem failState_abort_branch (st : SessionState) (i : Nat) (msg : String)
    (h : abortSet st = true) :
    failState st i msg = ({ st with state := updateAt st.state i markAborted }, .abortReturn) := by
  simp [failState, h]

theorem failState_err_branch (st : SessionState) (i : Nat) (msg : String)
    (h : abortSet st = false) :
    failState st i msg =
      ({ st with state := updateAt st.state i (markFailed msg) }, .raised msg) := by
  simp [failState, h]

theorem answer_stream_fail_eq (st0 : SessionState) (f1 f2 : String) (cfg : AnswerConfig)
    (pre ls : List EnvStep) (msg : String) :
    answer_stream st0 f1 f2 cfg ⟨pre, .fail msg, ls⟩ =
      failState (midState st0 f1 f2 cfg pre) st0.state.length msg := by
  show failState (midState st0 f1 f2 cfg pre) (streamIndex st0 f1 f2 cfg) msg = _
  rw [streamIndex_eq]

/-! The claims. -/

/-- C1 (counterexample): the pairing invariant
`messages.length = 2 * interactions.length` does not hold after every
public operation for every prior history: a session constructed with two
initial messages has 4 messages but only 1 interaction after a completed
`answer`. -/
theorem C1_counterexample :
    ¬ ((answer_stream pairedSession "u1" "u2" demoCfg demoEnv).1.messages.length =
        2 * (answer_stream pairedSession "u1" "u2" demoCfg demoEnv).1.state.length) := by
  decide

/-- C1 (amended): if `messages.length = 2 * interactions.length` holds
before the operation, it holds again after `answer`/`answer_stream`
completes, after `abort`, and after `clear_session` (which establishes it
unconditionally); sessions constructed with non-empty `initial_messages`
never satisfy it, and `regenerate_last` does not preserve it. -/
theorem C1_pairing_preserved (st : SessionState) (f1 f2 : String) (cfg : AnswerConfig)
    (env : Env) (h : st.messages.length = 2 * st.state.length) :
    (answer_stream st f1 f2 cfg env).1.messages.length =
        2 * (answer_stream st f1 f2 cfg env).1.state.length ∧
    (abort st).1.messages.length = 2 * (abort st).1.state.length ∧
    (clear_session st).messages.length = 2 * (clear_session st).state.length := by
  obtain ⟨hlen, hmsg, -, -, -⟩ := answer_stream_frame st f1 f2 cfg env
  refine ⟨?_, ?_, by simp [clear_session]⟩
  · rw [hlen, hmsg]
    simp only [List.length_append, List.length_cons, List.length_nil, h]
    omega
  · obtain ⟨hm, hs⟩ := abort_fst_shape st
    rw [hm, hs, h]

/-- C1 (witness for the amended claim): on a fresh empty session the
pairing invariant holds after a completed `answer_stream`. -/
theorem C1_pairing_preserved_witness :
    (answer_stream demoSession "u1" "u2" demoCfg demoEnv).1.messages.length =
        2 * (answer_stream demoSession "u1" "u2" demoCfg demoEnv).1.state.length :=
  (C1_pairing_preserved demoSession "u1" "u2" demoCfg demoEnv (by decide)).1

/-- C2 (code evaluated at the failing input): on an empty session,
`answer({query:"hi"})` leaves 2 messages; `regenerate_last` pops only the
assistant message before re-issuing the answer, so after the regeneration
completes the history has 3 messages — the user message is duplicated —
instead of the 2 the claim requires. -/
theorem C2_regenerate_grows_history :
    (answer_stream demoSession "u1" "u2" demoCfg demoEnv).1.messages.length = 2 ∧
    (regenerate_last (answer_stream demoSession "u1" "u2" demoCfg demoEnv).1
        "u3" "u4" demoEnv).1.messages =
      [⟨Role.user, "hi"⟩, ⟨Role.user, "hi"⟩, ⟨Role.assistant, ""⟩] ∧
    (regenerate_last (answer_stream demoSession "u1" "u2" demoCfg demoEnv).1
        "u3" "u4" demoEnv).1.state.length = 1 := by
  decide

/-- C3 (counterexample): after `answer` completes successfully the single
interaction is terminal (`loading=false`, `error=false`, `aborted=false`),
yet a later `abort()` call mutates it, flipping `aborted` to true. -/
theorem C3_counterexample :
    ((answer_stream demoSession "u1" "u2" demoCfg demoEnv).1.state.getD 0
        defaultInteraction).loading = false ∧
    ((answer_stream demoSession "u1" "u2" demoCfg demoEnv).1.state.getD 0
        defaultInteraction).error = false ∧
    ((answer_stream demoSession "u1" "u2" demoCfg demoEnv).1.state.getD 0
        defaultInteraction).aborted = false ∧
    ((abort (answer_stream demoSession "u1" "u2" demoCfg demoEnv).1).1.state.getD 0
        defaultInteraction).aborted = true := by
  decide

/-- C3 (amended): a later `answer_stream` run never mutates any
pre-existing interaction record (terminal or not); however a later
`abort()` call does mutate the last interaction even when it is terminal,
setting `aborted=true` and `loading=false`. -/
theorem C3_terminal_frame (st : SessionState) (f1 f2 : String) (cfg : AnswerConfig)
    (env : Env) (j : Nat) (hj : j < st.state.length)
    (hev : st.abort_event.isSome = true) (hne : st.state ≠ []) :
    (answer_stream st f1 f2 cfg env).1.state.getD j defaultInteraction =
      st.state.getD j defaultInteraction ∧
    ((abort st).1.state.getD (st.state.length - 1) defaultInteraction).aborted = true ∧
    ((abort st).1.state.getD (st.state.length - 1) defaultInteraction).loading = false := by
  have hlt : st.state.length - 1 < st.state.length := by
    cases hS : st.state
    · exact absurd hS hne
    · simp [hS]
  refine ⟨(answer_stream_frame st f1 f2 cfg env).2.2.2.2 j hj, ?_, ?_⟩
  · rw [abort_of_ready st hev hne]
    show ((updateAt st.state (st.state.length - 1) markAborted).getD
        (st.state.length - 1) defaultInteraction).aborted = true
    rw [getD_updateAt_self _ _ _ hlt]
    rfl
  · rw [abort_of_ready st hev hne]
    show ((updateAt st.state (st.state.length - 1) markAborted).getD
        (st.state.length - 1) defaultInteraction).loading = false
    rw [getD_updateAt_self _ _ _ hlt]
    rfl

/-- C3 (witness for the amended claim): applied to a session holding one
in-flight interaction and a live cancellation event. -/
theorem C3_terminal_frame_witness :
    (answer_stream demoActive "u1" "u2" demoCfg demoEnv).1.state.getD 0 defaultInteraction =
      demoActive.state.getD 0 defaultInteraction ∧
    ((abort demoActive).1.state.getD (demoActive.state.length - 1)
        defaultInteraction).aborted = true ∧
    ((abort demoActive).1.state.getD (demoActive.state.length - 1)
        defaultInteraction).loading = false :=
  C3_terminal_frame demoActive "u1" "u2" demoCfg demoEnv 0 (by decide) (by decide) (by decide)

/-- C4: on any session state reachable while an answer is in flight (the
setup phase of `answer_stream` followed by any amount of external activity),
`abort()` succeeds, sets the cancellation signal, and leaves the in-flight
(last) interaction with `loading=false`, `aborted=true`, `error=false`,
regardless of how many streaming events were already applied. -/
theorem C4_abort_during_streaming (st0 : SessionState) (f1 f2 : String) (cfg : AnswerConfig)
    (pre : List EnvStep) :
    (abort (midState st0 f1 f2 cfg pre)).2 = none ∧
    (abort (midState st0 f1 f2 cfg pre)).1.abort_event = some true ∧
    ((abort (midState st0 f1 f2 cfg pre)).1.state.getD st0.state.length
        defaultInteraction).loading = false ∧
    ((abort (midState st0 f1 f2 cfg pre)).1.state.getD st0.state.length
        defaultInteraction).aborted = true ∧
    ((abort (midState st0 f1 f2 cfg pre)).1.state.getD st0.state.length
        defaultInteraction).error = false := by
  obtain ⟨hlen, -, -, hev, -⟩ := midState_frame st0 f1 f2 cfg pre
  have he := midState_errclear st0 f1 f2 cfg pre
  have hne : (midState st0 f1 f2 cfg pre).state ≠ [] := by
    intro hEq
    rw [hEq] at hlen
    simp at hlen
  have hlt : st0.state.length < (midState st0 f1 f2 cfg pre).state.length := by omega
  have hidx : (midState st0 f1 f2 cfg pre).state.length - 1 = st0.state.length := by omega
  have key : (updateAt (midState st0 f1 f2 cfg pre).state
      ((midState st0 f1 f2 cfg pre).state.length - 1) markAborted).getD
      st0.state.length defaultInteraction =
      markAborted ((midState st0 f1 f2 cfg pre).state.getD st0.state.length
        defaultInteraction) := by
    rw [hidx]
    exact getD_updateAt_self _ _ _ hlt
  rw [abort_of_ready _ hev hne]
  refine ⟨rfl, rfl, ?_, ?_, ?_⟩
  · show ((updateAt (midState st0 f1 f2 cfg pre).state
        ((midState st0 f1 f2 cfg pre).state.length - 1) markAborted).getD
        st0.state.length defaultInteraction).loading = false
    rw [key]
    rfl
  · show ((updateAt (midState st0 f1 f2 cfg pre).state
        ((midState st0 f1 f2 cfg pre).state.length - 1) markAborted).getD
        st0.state.length defaultInteraction).aborted = true
    rw [key]
    rfl
  · show ((updateAt (midState st0 f1 f2 cfg pre).state
        ((midState st0 f1 f2 cfg pre).state.length - 1) markAborted).getD
        st0.state.length defaultInteraction).error = false
    rw [key]
    exact he

/-- C5: when the transport raises with message `msg` (non-empty, as
`str(error)` of the exceptions the stream can hit), the in-flight
interaction ends `loading=false, error=true` with `error_message = msg` and
the error is re-raised; if instead the cancellation signal was set when the
failure is observed, the interaction ends `loading=false, aborted=true` and
the generator returns without raising. -/
theorem C5_failure_paths (st0 : SessionState) (f1 f2 : String) (cfg : AnswerConfig)
    (pre ls : List EnvStep) (msg : String) (hmsg : msg ≠ "") :
    (abortSet (midState st0 f1 f2 cfg pre) = false →
      (answer_stream st0 f1 f2 cfg ⟨pre, .fail msg, ls⟩).2 = .raised msg ∧
      ((answer_stream st0 f1 f2 cfg ⟨pre, .fail msg, ls⟩).1.state.getD st0.state.length
          defaultInteraction).loading = false ∧
      ((answer_stream st0 f1 f2 cfg ⟨pre, .fail msg, ls⟩).1.state.getD st0.state.length
          defaultInteraction).error = true ∧
      ((answer_stream st0 f1 f2 cfg ⟨pre, .fail msg, ls⟩).1.state.getD st0.state.length
          defaultInteraction).error_message = some msg ∧
      msg ≠ "") ∧
    (abortSet (midState st0 f1 f2 cfg pre) = true →
      (answer_stream st0 f1 f2 cfg ⟨pre, .fail msg, ls⟩).2 = .abortReturn ∧
      ((answer_stream st0 f1 f2 cfg ⟨pre, .fail msg, ls⟩).1.state.getD st0.state.length
          defaultInteraction).loading = false ∧
      ((answer_stream st0 f1 f2 cfg ⟨pre, .fail msg, ls⟩).1.state.getD st0.state.length
          defaultInteraction).aborted = true) := by
  obtain ⟨hlen, -, -, -, -⟩ := midState_frame st0 f1 f2 cfg pre
  have hlt : st0.state.length < (midState st0 f1 f2 cfg pre).state.length := by omega
  rw [answer_stream_fail_eq]
  constructor
  · intro hA
    rw [failState_err_branch _ _ _ hA]
    refine ⟨rfl, ?_, ?_, ?_, hmsg⟩
    · show ((updateAt (midState st0 f1 f2 cfg pre).state st0.state.length
          (markFailed msg)).getD st0.state.length defaultInteraction).loading = false
      rw [getD_updateAt_self _ _ _ hlt]
      rfl
    · show ((updateAt (midState st0 f1 f2 cfg pre).state st0.state.length
          (markFailed msg)).getD st0.state.length defaultInteraction).error = true
      rw [getD_updateAt_self _ _ _ hlt]
      rfl
    · show ((updateAt (midState st0 f1 f2 cfg pre).state st0.state.length
          (markFailed msg)).getD st0.state.length defaultInteraction).error_message = some msg
      rw [getD_updateAt_self _ _ _ hlt]
      rfl
  · intro hA
    rw [failState_abort_branch _ _ _ hA]
    refine ⟨rfl, ?_, ?_⟩
    · show ((updateAt (midState st0 f1 f2 cfg pre).state st0.state.length
          markAborted).getD st0.state.length defaultInteraction).loading = false
      rw [getD_updateAt_self _ _ _ hlt]
      rfl
    · show ((updateAt (midState st0 f1 f2 cfg pre).state st0.state.length
          markAborted).getD st0.state.length defaultInteraction).aborted = true
      rw [getD_updateAt_self _ _ _ hlt]
      rfl

/-- C5 (witness): a transport failure "No response body" on a fresh session
with no cancellation yields the failed interaction and re-raises. -/
theorem C5_failure_paths_witness :
    (answer_stream demoSession "u1" "u2" demoCfg
        ⟨[], .fail "No response body", []⟩).2 = .raised "No response body" ∧
    ((answer_stream demoSession "u1" "u2" demoCfg
        ⟨[], .fail "No response body", []⟩).1.state.getD demoSession.state.length
        defaultInteraction).loading = false ∧
    ((answer_stream demoSession "u1" "u2" demoCfg
        ⟨[], .fail "No response body", []⟩).1.state.getD demoSession.state.length
        defaultInteraction).error = true ∧
    ((answer_stream demoSession "u1" "u2" demoCfg
        ⟨[], .fail "No response body", []⟩).1.state.getD demoSession.state.length
        defaultInteraction).error_message = some "No response body" ∧
    "No response body" ≠ "" :=
  (C5_failure_paths demoSession "u1" "u2" demoCfg [] [] "No response body"
    (by decide)).1 (by decide)

/-- C6: `abort()` on a session on which no answer was ever started
(`abort_event` still `None`) raises the no-active-request error and leaves
the whole session state unchanged. -/
theorem C6_abort_without_request (st : SessionState) (h : st.abort_event = none) :
    abort st = (st, some "No active request to abort") :=
  abort_of_none st h

/-- C6 (witness): a freshly constructed session. -/
theorem C6_abort_without_request_witness :
    abort demoSession = (demoSession, some "No active request to abort") :=
  C6_abort_without_request demoSession rfl

/-- C7 (code evaluated at the failing input): `answer({query:"hi"})` on an
empty session creates one interaction with `loading=true` and appends the
two messages `user:"hi"`, `assistant:""`; after the stream delivers "hello"
and terminates, the interaction is `{loading:false, error:false,
aborted:false}` with `response = "hello"` — but the assistant message's
content is still `""`, not the accumulated response, because the loop never
writes to `messages` (`current_message_index` is computed and never used). -/
theorem C7_answer_hi_scenario :
    (setupPhase demoSession "u1" "u2" demoCfg).messages =
      [⟨Role.user, "hi"⟩, ⟨Role.assistant, ""⟩] ∧
    (setupPhase demoSession "u1" "u2" demoCfg).state.length = 1 ∧
    ((setupPhase demoSession "u1" "u2" demoCfg).state.getD 0
        defaultInteraction).loading = true ∧
    (answer demoSession "u1" "u2" demoCfg demoEnv).2 = .finished ["hello"] ∧
    ((answer demoSession "u1" "u2" demoCfg demoEnv).1.state.getD 0
        defaultInteraction).loading = false ∧
    ((answer demoSession "u1" "u2" demoCfg demoEnv).1.state.getD 0
        defaultInteraction).error = false ∧
    ((answer demoSession "u1" "u2" demoCfg demoEnv).1.state.getD 0
        defaultInteraction).aborted = false ∧
    ((answer demoSession "u1" "u2" demoCfg demoEnv).1.state.getD 0
        defaultInteraction).response = "hello" ∧
    ((answer demoSession "u1" "u2" demoCfg demoEnv).1.messages.getD 1
        ⟨Role.system, "none"⟩).content = "" := by
  decide

/-- C8: `_enrich_config` fills `visitor_id` with the fixed server user id,
`interaction_id` with a freshly generated identifier and `session_id` with
the session's stable id exactly when each field is Python-falsy (unset, or
the empty string, which Python treats as unset); truthy fields and every
other field of the request are left unchanged. -/
theorem C8_enrichment (st : SessionState) (fresh : String) (cfg : AnswerConfig) :
    (strFalsy cfg.visitor_id = true →
      (enrich_config st fresh cfg).visitor_id = some DEFAULT_SERVER_USER_ID) ∧
    (strFalsy cfg.visitor_id = false →
      (enrich_config st fresh cfg).visitor_id = cfg.visitor_id) ∧
    (strFalsy cfg.interaction_id = true →
      (enrich_config st fresh cfg).interaction_id = some fresh) ∧
    (strFalsy cfg.interaction_id = false →
      (enrich_config st fresh cfg).interaction_id = cfg.interaction_id) ∧
    (strFalsy cfg.session_id = true →
      (enrich_config st fresh cfg).session_id = some st.session_id) ∧
    (strFalsy cfg.session_id = false →
      (enrich_config st fresh cfg).session_id = cfg.session_id) ∧
    (enrich_config st fresh cfg).query = cfg.query ∧
    (enrich_config st fresh cfg).messages = cfg.messages ∧
    (enrich_config st fresh cfg).related = cfg.related ∧
    (enrich_config st fresh cfg).datasource_ids = cfg.datasource_ids ∧
    (enrich_config st fresh cfg).min_similarity = cfg.min_similarity ∧
    (enrich_config st fresh cfg).max_documents = cfg.max_documents ∧
    (enrich_config st fresh cfg).ragat = cfg.ragat := by
  refine ⟨?_, ?_, ?_, ?_, ?_, ?_, rfl, rfl, rfl, rfl, rfl, rfl, rfl⟩ <;>
    intro h <;> simp [enrich_config, get_user_id, h]

/-- C8 (witness): on a request with no `visitor_id` the enriched request
carries the fixed server identifier. -/
theorem C8_enrichment_witness :
    (enrich_config demoSession "fid" demoCfg).visitor_id = some DEFAULT_SERVER_USER_ID :=
  (C8_enrichment demoSession "fid" demoCfg).1 rfl

theorem session_eta_event_state (st : SessionState) (h : st.abort_event = some true) :
    ({ st with abort_event := some true, state := st.state } : SessionState) = st := by
  cases st with
  | mk c s p e m stt l =>
      cases h
      rfl

/-- C9: abort is idempotent — once `abort()` has succeeded, a second
`abort()` call succeeds and leaves the session state exactly as the first
call left it. -/
theorem C9_abort_idempotent (st st' : SessionState) (h : abort st = (st', none)) :
    abort st' = (st', none) := by
  rcases hO : st.abort_event with _ | b
  · rw [abort_of_none st hO] at h
    exact absurd (congrArg Prod.snd h) (by simp)
  · rcases hS : st.state with _ | ⟨x, xs⟩
    · have hfail : abort st = (st, some "There is no active request to abort") := by
        simp [abort, hO, hS]
      rw [hfail] at h
      exact absurd (congrArg Prod.snd h) (by simp)
    · have hne : st.state ≠ [] := by
        rw [hS]
        simp
      have hev : st.abort_event.isSome = true := by
        rw [hO]
        rfl
      have hn : st.state.length - 1 < st.state.length := by
        rw [hS]
        simp
      have hR : st' =
          { st with
            abort_event := some true
            state := updateAt st.state (st.state.length - 1) markAborted } := by
        rw [abort_of_ready st hev hne] at h
        exact (congrArg Prod.fst h).symm
      have hev' : st'.abort_event = some true := by
        rw [hR]
      have hevs : st'.abort_event.isSome = true := by
        rw [hev']
        rfl
      have hlen' : st'.state.length = st.state.length := by
        rw [hR]
        exact length_updateAt _ _ _
      have hne' : st'.state ≠ [] := by
        intro hE
        rw [hE] at hlen'
        rw [hS] at hlen'
        simp at hlen'
      rw [abort_of_ready st' hevs hne']
      have hstate : updateAt st'.state (st'.state.length - 1) markAborted = st'.state := by
        rw [hlen', hR]
        show updateAt (updateAt st.state (st.state.length - 1) markAborted)
            (st.state.length - 1) markAborted =
          updateAt st.state (st.state.length - 1) markAborted
        exact updateAt_idem st.state (st.state.length - 1) markAborted (fun x => rfl) hn
      rw [hstate, session_eta_event_state st' hev']

/-- C9 (witness): a session with one in-flight interaction, aborted twice. -/
theorem C9_abort_idempotent_witness :
    abort (abort demoActive).1 = ((abort demoActive).1, none) :=
  C9_abort_idempotent demoActive (abort demoActive).1 (by decide)

/-- C10: `answer_stream` stores a field-by-field copy of the request taken
before enrichment (equal, as a value, to the caller's request, and kept
unchanged for the rest of the run), so identifiers generated during
enrichment are absent from the stored parameters when unset in the request;
the created interaction nevertheless carries the freshly generated id. -/
theorem C10_params_pre_enrichment (st0 : SessionState) (f1 f2 : String) (cfg : AnswerConfig)
    (env : Env) (hf1 : f1 ≠ "") :
    (answer_stream st0 f1 f2 cfg env).1.last_interaction_params = some (copyConfig cfg) ∧
    copyConfig cfg = cfg ∧
    (cfg.interaction_id = none →
      ((setupPhase st0 f1 f2 cfg).state.getD st0.state.length defaultInteraction).id = f1) := by
  refine ⟨(answer_stream_frame st0 f1 f2 cfg env).2.2.1, rfl, ?_⟩
  intro h
  show ((st0.state ++ [mkInteraction (orStr (enrich_config st0 f1 cfg).interaction_id f2)
      (enrich_config st0 f1 cfg)]).getD st0.state.length defaultInteraction).id = f1
  rw [getD_append_self]
  simp [mkInteraction, enrich_config, strFalsy, h, orStr, hf1]

/-- C10 (witness): on the scenario request (no ids set) the stored
parameters still have no `interaction_id` while the interaction got the
generated one. -/
theorem C10_params_pre_enrichment_witness :
    (answer_stream demoSession "u1" "u2" demoCfg demoEnv).1.last_interaction_params =
      some (copyConfig demoCfg) ∧
    copyConfig demoCfg = demoCfg ∧
    ((setupPhase demoSession "u1" "u2" demoCfg).state.getD demoSession.state.length
        defaultInteraction).id = "u1" := by
  have h := C10_params_pre_enrichment demoSession "u1" "u2" demoCfg demoEnv (by decide)
  exact ⟨h.1, h.2.1, h.2.2 rfl⟩

end Orama
